import Mathlib

/-!
Verification of the Coding Clinic booking system (clinic.py / calendar_sync.py).

The booking ledger (`bookings.json`) is a list of slot records; each command
loads it, performs one transition, calls the Calendar Service 0-2 times
(`create_event`, `delete_event`) and saves the ledger back.  We embed the
ledger as a `List Slot`, the remote Calendar Service as an explicit state
(`Calendar`) plus per-call success flags (the Python calls can fail, returning
`None` from `create_event` and `False` from `delete_event`), and each CLI
command as a pure function returning the printed outcome, the new ledger and
the new calendar state.
-/

namespace Clinic

/-- A slot record as stored in `bookings.json`.  Keys that a record may lack
(`student_email`, `subject`, `description`, `booked_at`, and `event_id`, which
`cancel` can set to Python `None`) are `Option`s; the remaining keys are set by
every record constructor in the code. -/
structure Slot where
  date : String
  time : String
  status : String
  volunteer_name : String
  volunteer_email : String
  student_email : Option String
  subject : Option String
  slotDescription : Option String
  booked_at : Option String
  event_id : Option Nat
deriving Repr, DecidableEq

/-- The remote Calendar Service state: a fresh-id counter (Google event ids are
never reused; we model them as naturals issued in order) and the set of live
events. -/
structure Calendar where
  nextId : Nat
  live : List Nat
deriving Repr, DecidableEq

/-- `CalendarSync.create_event`: on success returns the id of the created
event; on failure (exception or unauthenticated) returns `none` and leaves the
remote state unchanged.  The `ok` flag says whether the remote call succeeds. -/
def createEvent (cal : Calendar) (ok : Bool) : Option Nat × Calendar :=
  if ok then (some cal.nextId, ⟨cal.nextId + 1, cal.nextId :: cal.live⟩)
  else (none, cal)

/-- `CalendarSync.delete_event`: on success returns `True` and removes the
event; on failure returns `False` and leaves the remote state unchanged. -/
def deleteEvent (cal : Calendar) (ok : Bool) (eid : Nat) : Bool × Calendar :=
  if ok then (true, ⟨cal.nextId, cal.live.erase eid⟩)
  else (false, cal)

/-- `next((b for b in self.bookings if b['date'] == date and b['time'] == time), None)`. -/
def findSlot : List Slot → String → String → Option Slot
  | [], _, _ => none
  | b :: rest, d, t =>
      if b.date = d ∧ b.time = t then some b else findSlot rest d t

/-- `self.bookings.remove(existing)` where `existing` is the first record
matching the key: removes the first record with that (date, time). -/
def removeFirst : List Slot → String → String → List Slot
  | [], _, _ => []
  | b :: rest, d, t =>
      if b.date = d ∧ b.time = t then rest else b :: removeFirst rest d t

/-- In-place mutation of the dict found by `findSlot`: replaces the first
record with the given key by `s`, keeping its position. -/
def replaceFirst : List Slot → String → String → Slot → List Slot
  | [], _, _, _ => []
  | b :: rest, d, t, s =>
      if b.date = d ∧ b.time = t then s :: rest else b :: replaceFirst rest d t s

/-- Outcome printed by `ClinicBookingSystem.volunteer`. -/
inductive VolOutcome where
  | alreadyVolunteered
  | slotHasVolunteer (name : String)
  | createFailed
  | success
deriving Repr, DecidableEq

/-- Outcome printed by `ClinicBookingSystem.book`. -/
inductive BookOutcome where
  | noSlotFound
  | alreadyBooked (student : Option String)
  | noVolunteerAvailable
  | createFailed
  | success
deriving Repr, DecidableEq

/-- Outcome printed by `ClinicBookingSystem.cancel` (both modes). -/
inductive CancelOutcome where
  | noSlotFound
  | notYourVolunteerSlot
  | slotIsBooked (student : Option String)
  | notBooked
  | notYourBooking
  | success
deriving Repr, DecidableEq

/-- `ClinicBookingSystem.volunteer(date, time, name, email)`.  `createOk` is
whether the single remote `create_event` call would succeed. -/
def volunteer (ledger : List Slot) (cal : Calendar) (createOk : Bool)
    (date time name email : String) : VolOutcome × List Slot × Calendar :=
  match findSlot ledger date time with
  | some existing =>
      if existing.volunteer_email = email then
        (VolOutcome.alreadyVolunteered, ledger, cal)
      else if existing.volunteer_email ≠ "" then
        (VolOutcome.slotHasVolunteer existing.volunteer_name, ledger, cal)
      else
        match createEvent cal createOk with
        | (none, cal1) => (VolOutcome.createFailed, ledger, cal1)
        | (some eid, cal1) =>
            (VolOutcome.success,
             removeFirst ledger date time ++
               [⟨date, time, "available", name, email, none, none, none, none, some eid⟩],
             cal1)
  | none =>
      match createEvent cal createOk with
      | (none, cal1) => (VolOutcome.createFailed, ledger, cal1)
      | (some eid, cal1) =>
          (VolOutcome.success,
           ledger ++
             [⟨date, time, "available", name, email, none, none, none, none, some eid⟩],
           cal1)

/-- `ClinicBookingSystem.book(date, time, subject, description, student_email)`.
`delOk` / `createOk` are whether the remote `delete_event` / `create_event`
calls would succeed; `now` stands for `datetime.now().isoformat()`.  Note the
code ignores the result of `delete_event`. -/
def book (ledger : List Slot) (cal : Calendar) (delOk createOk : Bool)
    (date time subj descr student_email now : String) :
    BookOutcome × List Slot × Calendar :=
  match findSlot ledger date time with
  | none => (BookOutcome.noSlotFound, ledger, cal)
  | some booking =>
      if booking.status ≠ "available" then
        if booking.status = "booked" then
          (BookOutcome.alreadyBooked booking.student_email, ledger, cal)
        else
          (BookOutcome.noVolunteerAvailable, ledger, cal)
      else
        let cal1 := match booking.event_id with
          | some eid => (deleteEvent cal delOk eid).2
          | none => cal
        match createEvent cal1 createOk with
        | (none, cal2) => (BookOutcome.createFailed, ledger, cal2)
        | (some eid, cal2) =>
            (BookOutcome.success,
             replaceFirst ledger date time
               ⟨booking.date, booking.time, "booked", booking.volunteer_name,
                booking.volunteer_email, some student_email, some subj,
                some descr, some now, some eid⟩,
             cal2)

/-- `ClinicBookingSystem.cancel(date, time, email, is_volunteer=True)`. -/
def cancelVolunteer (ledger : List Slot) (cal : Calendar) (delOk : Bool)
    (date time email : String) : CancelOutcome × List Slot × Calendar :=
  match findSlot ledger date time with
  | none => (CancelOutcome.noSlotFound, ledger, cal)
  | some booking =>
      if booking.volunteer_email ≠ email then
        (CancelOutcome.notYourVolunteerSlot, ledger, cal)
      else if booking.status = "booked" then
        (CancelOutcome.slotIsBooked booking.student_email, ledger, cal)
      else
        let cal1 := match booking.event_id with
          | some eid => (deleteEvent cal delOk eid).2
          | none => cal
        (CancelOutcome.success, removeFirst ledger date time, cal1)

/-- `ClinicBookingSystem.cancel(date, time, email, is_volunteer=False)`.  Note
the code updates the record and saves even when the re-created volunteer event
fails (`event_id` is then stored as `None`), and ignores the `delete_event`
result. -/
def cancelBooking (ledger : List Slot) (cal : Calendar) (delOk createOk : Bool)
    (date time email : String) : CancelOutcome × List Slot × Calendar :=
  match findSlot ledger date time with
  | none => (CancelOutcome.noSlotFound, ledger, cal)
  | some booking =>
      if booking.status ≠ "booked" then
        (CancelOutcome.notBooked, ledger, cal)
      else if booking.student_email ≠ some email then
        (CancelOutcome.notYourBooking, ledger, cal)
      else
        let cal1 := match booking.event_id with
          | some eid => (deleteEvent cal delOk eid).2
          | none => cal
        let res := createEvent cal1 createOk
        (CancelOutcome.success,
         replaceFirst ledger date time
           ⟨booking.date, booking.time, "available", booking.volunteer_name,
            booking.volunteer_email, none, none, none, none, res.1⟩,
         res.2)

/-- The filter phase of `ClinicBookingSystem.view`: `if date:` and
`if status:` — a Python falsy filter value (absent flag or empty string)
applies no filter. -/
def viewFilter (ledger : List Slot) (dateF statusF : Option String) : List Slot :=
  let f1 := match dateF with
    | some d => if d ≠ "" then ledger.filter (fun b => b.date = d) else ledger
    | none => ledger
  match statusF with
  | some s => if s ≠ "" then f1.filter (fun b => b.status = s) else f1
  | none => f1

/-- Display order of `view`: records sorted by the (date, time) key. -/
def viewLe (a b : Slot) : Prop :=
  a.date < b.date ∨ (a.date = b.date ∧ a.time ≤ b.time)

instance : DecidableRel viewLe := fun a b => by
  unfold viewLe; infer_instance

instance : IsTotal Slot viewLe where
  total a b := by
    rcases lt_trichotomy a.date b.date with h | h | h
    · exact Or.inl (Or.inl h)
    · rcases le_total a.time b.time with h2 | h2
      · exact Or.inl (Or.inr ⟨h, h2⟩)
      · exact Or.inr (Or.inr ⟨h.symm, h2⟩)
    · exact Or.inr (Or.inl h)

instance : IsTrans Slot viewLe where
  trans a b c hab hbc := by
    rcases hab with h1 | ⟨h1, h1t⟩
    · rcases hbc with h2 | ⟨h2, _⟩
      · exact Or.inl (h1.trans h2)
      · exact Or.inl (h2 ▸ h1)
    · rcases hbc with h2 | ⟨h2, h2t⟩
      · exact Or.inl (h1 ▸ h2)
      · exact Or.inr ⟨h1.trans h2, h1t.trans h2t⟩

/-- The sequence of records as displayed by `view`: the filtered records,
grouped by date ascending, times ascending within each date — i.e. sorted by
the (date, time) key (`sorted(filtered, key=lambda x: (x['date'], x['time']))`
followed by date-sorted grouping). -/
def viewDisplay (ledger : List Slot) (dateF statusF : Option String) : List Slot :=
  List.insertionSort viewLe (viewFilter ledger dateF statusF)

/-- The ledger invariant of the data model: every stored record has status
`available` or `booked`; a `booked` record carries the student email, subject
and booking timestamp; an `available` record carries none of them. -/
def slotWF (b : Slot) : Prop :=
  (b.status = "available" ∨ b.status = "booked") ∧
  (b.status = "booked" →
    b.student_email.isSome ∧ b.subject.isSome ∧ b.booked_at.isSome) ∧
  (b.status = "available" →
    b.student_email = none ∧ b.subject = none ∧ b.booked_at = none)

instance (b : Slot) : Decidable (slotWF b) := by
  unfold slotWF; infer_instance

/-! ### Helper lemmas on ledger access -/

theorem findSlot_mem {l : List Slot} {d t : String} {b : Slot}
    (h : findSlot l d t = some b) : b ∈ l := by
  induction l with
  | nil => simp [findSlot] at h
  | cons x rest ih =>
      by_cases hx : x.date = d ∧ x.time = t
      · simp [findSlot, hx] at h
        simp [h]
      · simp [findSlot, hx] at h
        exact List.mem_cons_of_mem _ (ih h)

theorem findSlot_keys {l : List Slot} {d t : String} {b : Slot}
    (h : findSlot l d t = some b) : b.date = d ∧ b.time = t := by
  induction l with
  | nil => simp [findSlot] at h
  | cons x rest ih =>
      by_cases hx : x.date = d ∧ x.time = t
      · simp [findSlot, hx] at h
        exact h ▸ hx
      · simp [findSlot, hx] at h
        exact ih h

theorem mem_removeFirst {l : List Slot} {d t : String} {b : Slot}
    (h : b ∈ removeFirst l d t) : b ∈ l := by
  induction l with
  | nil => simp [removeFirst] at h
  | cons x rest ih =>
      by_cases hx : x.date = d ∧ x.time = t
      · simp [removeFirst, hx] at h
        exact List.mem_cons_of_mem _ h
      · simp [removeFirst, hx] at h
        rcases h with h | h
        · simp [h]
        · exact List.mem_cons_of_mem _ (ih h)

theorem mem_replaceFirst {l : List Slot} {d t : String} {s b : Slot}
    (h : b ∈ replaceFirst l d t s) : b ∈ l ∨ b = s := by
  induction l with
  | nil => simp [replaceFirst] at h
  | cons x rest ih =>
      by_cases hx : x.date = d ∧ x.time = t
      · simp [replaceFirst, hx] at h
        rcases h with h | h
        · exact Or.inr h
        · exact Or.inl (List.mem_cons_of_mem _ h)
      · simp [replaceFirst, hx] at h
        rcases h with h | h
        · exact Or.inl (by simp [h])
        · rcases ih h with h2 | h2
          · exact Or.inl (List.mem_cons_of_mem _ h2)
          · exact Or.inr h2

theorem findSlot_replaceFirst {l : List Slot} {d t : String} {b s : Slot}
    (h : findSlot l d t = some b) (hd : s.date = d) (ht : s.time = t) :
    findSlot (replaceFirst l d t s) d t = some s := by
  induction l with
  | nil => simp [findSlot] at h
  | cons x rest ih =>
      by_cases hx : x.date = d ∧ x.time = t
      · simp [replaceFirst, hx, findSlot, hd, ht]
      · simp [findSlot, hx] at h
        simp [replaceFirst, hx, findSlot, ih h]

theorem replaceFirst_replaceFirst {l : List Slot} {d t : String} (s1 s2 : Slot)
    (hd : s1.date = d) (ht : s1.time = t) :
    replaceFirst (replaceFirst l d t s1) d t s2 = replaceFirst l d t s2 := by
  induction l with
  | nil => simp [replaceFirst]
  | cons x rest ih =>
      by_cases hx : x.date = d ∧ x.time = t
      · simp [replaceFirst, hx, hd, ht]
      · simp [replaceFirst, hx, ih]

theorem deleteEvent_nextId (cal : Calendar) (ok : Bool) (e : Nat) :
    ((deleteEvent cal ok e).2).nextId = cal.nextId := by
  cases ok <;> simp [deleteEvent]

/-! ### Concrete fixtures used by witnesses and counterexamples -/

/-- An Available slot held by volunteer Ann, mirroring remote event 3. -/
def annSlot : Slot :=
  ⟨"2026-02-15", "10:00", "available", "Ann", "ann@x.com",
   none, none, none, none, some 3⟩

/-- A calendar state that has already issued ids 0..4, with event 3 live. -/
def calFive : Calendar := ⟨5, [3]⟩

/-- The slot obtained by booking `annSlot` (student stu@x.com, event 5). -/
def bookedSlot : Slot :=
  ⟨"2026-02-15", "10:00", "booked", "Ann", "ann@x.com",
   some "stu@x.com", some "Loops", some "help", some "T", some 5⟩

/-! ### C1 -/

/-- C1 (counterexample): a failing remote `delete_event` call does NOT abort
CancelVolunteer — the call fails (`delete_event` returns `False`) yet the
operation reports success and the slot collection after it differs from the
collection before it. -/
theorem claim_C1_counterexample :
    (deleteEvent calFive false 3).1 = false ∧
    (cancelVolunteer [annSlot] calFive false "2026-02-15" "10:00" "ann@x.com").1 =
      CancelOutcome.success ∧
    (cancelVolunteer [annSlot] calFive false "2026-02-15" "10:00" "ann@x.com").2.1 ≠
      [annSlot] := by
  refine ⟨rfl, rfl, ?_⟩
  decide

/-- C1 (amended): only a failing remote `create_event` aborts without mutating
the ledger, and only in Volunteer and Book; a failing remote `delete_event` is
ignored — the resulting ledger of CancelVolunteer and CancelBooking is
identical whether the delete succeeds or fails (both commit regardless). -/
theorem claim_C1 (ledger : List Slot) (cal : Calendar) (delOk createOk : Bool)
    (d t n e subj de se now e2 : String) :
    (volunteer ledger cal false d t n e).2.1 = ledger ∧
    (book ledger cal delOk false d t subj de se now).2.1 = ledger ∧
    (cancelVolunteer ledger cal false d t e2).2.1 =
      (cancelVolunteer ledger cal true d t e2).2.1 ∧
    (cancelBooking ledger cal false createOk d t e2).2.1 =
      (cancelBooking ledger cal true createOk d t e2).2.1 := by
  refine ⟨?_, ?_, ?_, ?_⟩
  · cases hfs : findSlot ledger d t with
    | none => simp [volunteer, hfs, createEvent]
    | some b =>
        simp only [volunteer, hfs]
        split_ifs <;> simp [createEvent]
  · cases hfs : findSlot ledger d t with
    | none => simp [book, hfs]
    | some b =>
        simp only [book, hfs]
        split_ifs <;> cases hbe : b.event_id <;> simp [hbe, createEvent]
  · cases hfs : findSlot ledger d t with
    | none => simp [cancelVolunteer, hfs]
    | some b =>
        simp only [cancelVolunteer, hfs]
        split_ifs <;> cases hbe : b.event_id <;> simp [hbe]
  · cases hfs : findSlot ledger d t with
    | none => simp [cancelBooking, hfs]
    | some b =>
        simp only [cancelBooking, hfs]
        split_ifs <;> cases hbe : b.event_id <;>
          cases createOk <;> simp [hbe, createEvent, deleteEvent]

/-! ### C9 -/

/-- C9: the result of the remote `delete_event` call is never consulted — for
Book, CancelBooking and CancelVolunteer, both the reported outcome and the
resulting ledger are identical in a run where the delete succeeds and a run
where it fails, all other inputs equal. -/
theorem claim_C9 (ledger : List Slot) (cal : Calendar) (createOk : Bool)
    (d t subj de se now e2 : String) :
    (book ledger cal true createOk d t subj de se now).1 =
      (book ledger cal false createOk d t subj de se now).1 ∧
    (book ledger cal true createOk d t subj de se now).2.1 =
      (book ledger cal false createOk d t subj de se now).2.1 ∧
    (cancelBooking ledger cal true createOk d t e2).1 =
      (cancelBooking ledger cal false createOk d t e2).1 ∧
    (cancelBooking ledger cal true createOk d t e2).2.1 =
      (cancelBooking ledger cal false createOk d t e2).2.1 ∧
    (cancelVolunteer ledger cal true d t e2).1 =
      (cancelVolunteer ledger cal false d t e2).1 ∧
    (cancelVolunteer ledger cal true d t e2).2.1 =
      (cancelVolunteer ledger cal false d t e2).2.1 := by
  cases hfs : findSlot ledger d t with
  | none => simp [book, cancelBooking, cancelVolunteer, hfs]
  | some b =>
      simp only [book, cancelBooking, cancelVolunteer, hfs]
      refine ⟨?_, ?_, ?_, ?_, ?_, ?_⟩ <;>
        (split_ifs <;> cases hbe : b.event_id <;>
          cases createOk <;> simp [hbe, createEvent, deleteEvent])

/-! ### C2 -/

/-- C2 (counterexample): during Book, when the remote delete of the old event
fails (`delete_event` returns `False`), the operation does NOT abort before
creating the new remote event: it reports success, commits the booking with
the newly created event id 5, and leaves the old event 3 live alongside the
new event 5. -/
theorem claim_C2_counterexample :
    (deleteEvent calFive false 3).1 = false ∧
    book [annSlot] calFive false true "2026-02-15" "10:00" "Loops" "help"
        "stu@x.com" "T" =
      (BookOutcome.success, [bookedSlot], ⟨6, [5, 3]⟩) := by
  decide

/-- C2 (amended): when the remote delete of the old event fails during Book or
CancelBooking, the operation does not abort — the delete result is ignored, the
new remote event is created anyway and the transition commits, so the old
remote event stays live (orphaned) alongside the newly created one: the
resulting live-event set is the new id consed onto the untouched old set. -/
theorem claim_C2 (ledger : List Slot) (cal : Calendar)
    (d t subj de se now : String) (e0 : Nat) (b : Slot) :
    (findSlot ledger d t = some b → b.status = "available" →
      b.event_id = some e0 →
      (book ledger cal false true d t subj de se now).1 = BookOutcome.success ∧
      (book ledger cal false true d t subj de se now).2.2.live =
        cal.nextId :: cal.live ∧
      findSlot (book ledger cal false true d t subj de se now).2.1 d t =
        some ⟨b.date, b.time, "booked", b.volunteer_name, b.volunteer_email,
              some se, some subj, some de, some now, some cal.nextId⟩) ∧
    (findSlot ledger d t = some b → b.status = "booked" →
      b.student_email = some se → b.event_id = some e0 →
      (cancelBooking ledger cal false true d t se).1 = CancelOutcome.success ∧
      (cancelBooking ledger cal false true d t se).2.2.live =
        cal.nextId :: cal.live ∧
      findSlot (cancelBooking ledger cal false true d t se).2.1 d t =
        some ⟨b.date, b.time, "available", b.volunteer_name, b.volunteer_email,
              none, none, none, none, some cal.nextId⟩) := by
  constructor
  · intro hfs hav heid
    obtain ⟨hbd, hbt⟩ := findSlot_keys hfs
    refine ⟨?_, ?_, ?_⟩
    · simp [book, hfs, hav, heid, createEvent, deleteEvent]
    · simp [book, hfs, hav, heid, createEvent, deleteEvent]
    · simp only [book, hfs, hav, heid]
      simp only [createEvent, deleteEvent, if_true, if_false, ite_true,
        ite_false, Bool.false_eq_true]
      simp only [ne_eq, hav, not_true_eq_false, if_false, reduceCtorEq]
      exact findSlot_replaceFirst hfs hbd hbt
  · intro hfs hbk hse heid
    obtain ⟨hbd, hbt⟩ := findSlot_keys hfs
    refine ⟨?_, ?_, ?_⟩
    · simp [cancelBooking, hfs, hbk, hse, heid, createEvent, deleteEvent]
    · simp [cancelBooking, hfs, hbk, hse, heid, createEvent, deleteEvent]
    · simp only [cancelBooking, hfs, hbk, hse, heid]
      simp only [createEvent, deleteEvent, ite_true, ite_false,
        Bool.false_eq_true, ne_eq, not_true_eq_false, if_false]
      exact findSlot_replaceFirst hfs hbd hbt

/-- C2 (witness for the amended theorem). -/
theorem claim_C2_witness :
    (book [annSlot] calFive false true "2026-02-15" "10:00" "Loops" "help"
        "stu@x.com" "T").1 = BookOutcome.success ∧
    (book [annSlot] calFive false true "2026-02-15" "10:00" "Loops" "help"
        "stu@x.com" "T").2.2.live = calFive.nextId :: calFive.live ∧
    findSlot (book [annSlot] calFive false true "2026-02-15" "10:00" "Loops"
        "help" "stu@x.com" "T").2.1 "2026-02-15" "10:00" =
      some ⟨annSlot.date, annSlot.time, "booked", annSlot.volunteer_name,
            annSlot.volunteer_email, some "stu@x.com", some "Loops",
            some "help", some "T", some calFive.nextId⟩ :=
  (claim_C2 [annSlot] calFive "2026-02-15" "10:00" "Loops" "help" "stu@x.com"
      "T" 3 annSlot).1 rfl rfl rfl

/-! ### C4 -/

/-- C4 (counterexample): booking a (date, time) with no slot record for that
key is rejected with the "No slot found" diagnostic, not the "no volunteer
available" one. -/
theorem claim_C4_counterexample :
    book [] calFive true true "2026-02-15" "10:00" "Loops" "help" "stu@x.com"
        "T" = (BookOutcome.noSlotFound, [], calFive) ∧
    BookOutcome.noSlotFound ≠ BookOutcome.noVolunteerAvailable := by
  refine ⟨rfl, by decide⟩

/-- C4 (amended): every failed Book precondition is rejected with a distinct
diagnostic and an unchanged ledger — no record for the key gives the "no slot
found" message, a booked record gives "already booked by X", and the "no
volunteer available" message is produced only for a record whose status is
neither `available` nor `booked`. -/
theorem claim_C4 (ledger : List Slot) (cal : Calendar) (delOk createOk : Bool)
    (d t subj de se now : String) :
    (findSlot ledger d t = none →
      book ledger cal delOk createOk d t subj de se now =
        (BookOutcome.noSlotFound, ledger, cal)) ∧
    (∀ b, findSlot ledger d t = some b → b.status = "booked" →
      book ledger cal delOk createOk d t subj de se now =
        (BookOutcome.alreadyBooked b.student_email, ledger, cal)) ∧
    (∀ b, findSlot ledger d t = some b → b.status ≠ "available" →
      b.status ≠ "booked" →
      book ledger cal delOk createOk d t subj de se now =
        (BookOutcome.noVolunteerAvailable, ledger, cal)) := by
  refine ⟨?_, ?_, ?_⟩
  · intro h
    simp [book, h]
  · intro b hfs hbk
    have hne : b.status ≠ "available" := by simp [hbk]
    simp [book, hfs, hne, hbk]
  · intro b hfs h1 h2
    simp [book, hfs, h1, h2]

/-- C4 (witness for the amended theorem). -/
theorem claim_C4_witness :
    book [] calFive true true "2026-02-15" "10:00" "Loops" "help" "stu@x.com"
        "T" = (BookOutcome.noSlotFound, [], calFive) :=
  (claim_C4 [] calFive true true "2026-02-15" "10:00" "Loops" "help"
      "stu@x.com" "T").1 rfl

/-! ### C5 -/

/-- C5: a Volunteer request on a slot that already holds a volunteer is
rejected without mutating the ledger: with the same volunteer email it is
rejected as a duplicate (an outcome distinct from success), and with a
different email it is rejected with a different message and the ledger — hence
the original volunteer — is retained. -/
theorem claim_C5 (ledger : List Slot) (cal : Calendar) (createOk : Bool)
    (d t n e : String) (b : Slot) (hfs : findSlot ledger d t = some b)
    (hne : b.volunteer_email ≠ "") :
    (b.volunteer_email = e →
      volunteer ledger cal createOk d t n e =
        (VolOutcome.alreadyVolunteered, ledger, cal) ∧
      VolOutcome.alreadyVolunteered ≠ VolOutcome.success) ∧
    (b.volunteer_email ≠ e →
      volunteer ledger cal createOk d t n e =
        (VolOutcome.slotHasVolunteer b.volunteer_name, ledger, cal) ∧
      VolOutcome.slotHasVolunteer b.volunteer_name ≠
        VolOutcome.alreadyVolunteered) := by
  constructor
  · intro heq
    refine ⟨?_, by simp⟩
    simp [volunteer, hfs, heq]
  · intro hneq
    refine ⟨?_, by simp⟩
    simp [volunteer, hfs, hneq, hne]

/-- C5 (witness): a different volunteer colliding with Ann's slot is rejected
with the slot-has-volunteer message and the ledger retained. -/
theorem claim_C5_witness :
    volunteer [annSlot] calFive true "2026-02-15" "10:00" "Bob" "bob@x.com" =
      (VolOutcome.slotHasVolunteer "Ann", [annSlot], calFive) ∧
    VolOutcome.slotHasVolunteer "Ann" ≠ VolOutcome.alreadyVolunteered :=
  (claim_C5 [annSlot] calFive true "2026-02-15" "10:00" "Bob" "bob@x.com"
      annSlot rfl (by decide)).2 (by decide)

/-! ### C8 -/

/-- C8: a CancelVolunteer request on a slot whose status is `booked` is
rejected (its outcome is never success) and the ledger is unchanged, whatever
email is supplied. -/
theorem claim_C8 (ledger : List Slot) (cal : Calendar) (delOk : Bool)
    (d t e : String) (b : Slot) (hfs : findSlot ledger d t = some b)
    (hbk : b.status = "booked") :
    (cancelVolunteer ledger cal delOk d t e).1 ≠ CancelOutcome.success ∧
    (cancelVolunteer ledger cal delOk d t e).2.1 = ledger := by
  by_cases hve : b.volunteer_email = e
  · constructor <;> simp [cancelVolunteer, hfs, hve, hbk]
  · constructor <;> simp [cancelVolunteer, hfs, hve]

/-- C8 (witness): canceling the booked slot as its own volunteer is still
rejected, ledger unchanged. -/
theorem claim_C8_witness :
    (cancelVolunteer [bookedSlot] calFive true "2026-02-15" "10:00"
        "ann@x.com").1 ≠ CancelOutcome.success ∧
    (cancelVolunteer [bookedSlot] calFive true "2026-02-15" "10:00"
        "ann@x.com").2.1 = [bookedSlot] :=
  claim_C8 [bookedSlot] calFive true "2026-02-15" "10:00" "ann@x.com"
    bookedSlot rfl rfl

/-! ### C10 -/

/-- C10: in CancelVolunteer the ownership check runs before the booked-status
check — a mismatched email is rejected with the ownership error even on a
Booked slot, and the booked-by-X diagnostic can only arise when the supplied
email matches the slot's volunteer email (and the slot is indeed booked). -/
theorem claim_C10 (ledger : List Slot) (cal : Calendar) (delOk : Bool)
    (d t e : String) (b : Slot) (hfs : findSlot ledger d t = some b) :
    (b.volunteer_email ≠ e →
      cancelVolunteer ledger cal delOk d t e =
        (CancelOutcome.notYourVolunteerSlot, ledger, cal)) ∧
    (∀ s, (cancelVolunteer ledger cal delOk d t e).1 =
        CancelOutcome.slotIsBooked s →
      b.volunteer_email = e ∧ b.status = "booked" ∧ s = b.student_email) := by
  constructor
  · intro hne
    simp [cancelVolunteer, hfs, hne]
  · intro s hout
    by_cases hve : b.volunteer_email = e
    · by_cases hbk : b.status = "booked"
      · simp [cancelVolunteer, hfs, hve, hbk] at hout
        exact ⟨hve, hbk, hout.symm⟩
      · cases hbe : b.event_id <;>
          simp [cancelVolunteer, hfs, hve, hbk, hbe] at hout
    · simp [cancelVolunteer, hfs, hve] at hout

/-- C10 (witness): a mismatched email on a booked slot yields the ownership
error, not the booked-by-X diagnostic. -/
theorem claim_C10_witness :
    bookedSlot.status = "booked" ∧
    cancelVolunteer [bookedSlot] calFive true "2026-02-15" "10:00" "zzz@x.com" =
      (CancelOutcome.notYourVolunteerSlot, [bookedSlot], calFive) :=
  ⟨rfl, (claim_C10 [bookedSlot] calFive true "2026-02-15" "10:00" "zzz@x.com"
      bookedSlot rfl).1 (by decide)⟩

/-! ### C6 -/

theorem slotWF_available (d t n e : String) (eid : Option Nat) :
    slotWF ⟨d, t, "available", n, e, none, none, none, none, eid⟩ := by
  simp [slotWF]

theorem slotWF_booked (d t n e se subj de now : String) (eid : Option Nat) :
    slotWF ⟨d, t, "booked", n, e, some se, some subj, some de, some now, eid⟩ := by
  simp [slotWF]

/-- C6: every operation preserves the ledger invariant — each stored record has
status `available` or `booked` (an `empty` status is never stored), a `booked`
record has the student email, subject and booked-at fields present, and an
`available` record has them all absent. -/
theorem claim_C6 (ledger : List Slot) (cal : Calendar) (delOk createOk : Bool)
    (d t n e subj de se now e2 : String)
    (hWF : ∀ b ∈ ledger, slotWF b) :
    (∀ b ∈ (volunteer ledger cal createOk d t n e).2.1, slotWF b) ∧
    (∀ b ∈ (book ledger cal delOk createOk d t subj de se now).2.1, slotWF b) ∧
    (∀ b ∈ (cancelBooking ledger cal delOk createOk d t e2).2.1, slotWF b) ∧
    (∀ b ∈ (cancelVolunteer ledger cal delOk d t e2).2.1, slotWF b) := by
  refine ⟨?_, ?_, ?_, ?_⟩
  · cases hfs : findSlot ledger d t with
    | none =>
        cases createOk with
        | false => simpa [volunteer, hfs, createEvent] using hWF
        | true =>
            intro b hb
            simp [volunteer, hfs, createEvent] at hb
            rcases hb with hb | hb
            · exact hWF b hb
            · exact hb ▸ slotWF_available d t n e (some cal.nextId)
    | some bb =>
        by_cases h1 : bb.volunteer_email = e
        · simpa [volunteer, hfs, h1] using hWF
        · by_cases h2 : bb.volunteer_email = ""
          · have h3 : ("" : String) ≠ e := h2 ▸ h1
            cases createOk with
            | false => simpa [volunteer, hfs, h2, h3, createEvent] using hWF
            | true =>
                intro b hb
                simp [volunteer, hfs, h2, h3, createEvent] at hb
                rcases hb with hb | hb
                · exact hWF b (mem_removeFirst hb)
                · exact hb ▸ slotWF_available d t n e (some cal.nextId)
          · simpa [volunteer, hfs, h1, h2] using hWF
  · cases hfs : findSlot ledger d t with
    | none => simpa [book, hfs] using hWF
    | some bb =>
        by_cases h1 : bb.status = "available"
        · cases createOk with
          | false =>
              cases hbe : bb.event_id <;>
                simpa [book, hfs, h1, hbe, createEvent] using hWF
          | true =>
              intro b hb
              cases hbe : bb.event_id <;>
                simp [book, hfs, h1, hbe, createEvent] at hb <;>
                (rcases mem_replaceFirst hb with h | h
                 · exact hWF b h
                 · exact h ▸ slotWF_booked bb.date bb.time bb.volunteer_name
                     bb.volunteer_email se subj de now _)
        · by_cases h2 : bb.status = "booked" <;>
            simpa [book, hfs, h1, h2] using hWF
  · cases hfs : findSlot ledger d t with
    | none => simpa [cancelBooking, hfs] using hWF
    | some bb =>
        by_cases h1 : bb.status = "booked"
        · by_cases h2 : bb.student_email = some e2
          · intro b hb
            cases hbe : bb.event_id <;> cases createOk <;>
              simp [cancelBooking, hfs, h1, h2, hbe, createEvent,
                deleteEvent] at hb <;>
              (rcases mem_replaceFirst hb with h | h
               · exact hWF b h
               · exact h ▸ slotWF_available bb.date bb.time bb.volunteer_name
                   bb.volunteer_email _)
          · simpa [cancelBooking, hfs, h1, h2] using hWF
        · simpa [cancelBooking, hfs, h1] using hWF
  · cases hfs : findSlot ledger d t with
    | none => simpa [cancelVolunteer, hfs] using hWF
    | some bb =>
        by_cases h1 : bb.volunteer_email = e2
        · by_cases h2 : bb.status = "booked"
          · simpa [cancelVolunteer, hfs, h1, h2] using hWF
          · intro b hb
            cases hbe : bb.event_id <;>
              simp [cancelVolunteer, hfs, h1, h2, hbe] at hb <;>
              exact hWF b (mem_removeFirst hb)
        · simpa [cancelVolunteer, hfs, h1] using hWF

/-- C6 (witness). -/
theorem claim_C6_witness :
    (∀ b ∈ (volunteer [annSlot] calFive true "2026-02-15" "10:00" "Bob"
        "bob@x.com").2.1, slotWF b) ∧
    (∀ b ∈ (book [annSlot] calFive true true "2026-02-15" "10:00" "Loops"
        "help" "stu@x.com" "T").2.1, slotWF b) ∧
    (∀ b ∈ (cancelBooking [annSlot] calFive true true "2026-02-15" "10:00"
        "ann@x.com").2.1, slotWF b) ∧
    (∀ b ∈ (cancelVolunteer [annSlot] calFive true "2026-02-15" "10:00"
        "ann@x.com").2.1, slotWF b) :=
  claim_C6 [annSlot] calFive true true "2026-02-15" "10:00" "Bob" "bob@x.com"
    "Loops" "help" "stu@x.com" "T" "ann@x.com" (by decide)

/-! ### C7 -/

/-- C7: view filtering by a date keeps exactly the records with that date,
filtering by a status keeps exactly the records with that status, supplying
both keeps exactly their intersection; the displayed sequence contains exactly
the filtered records and is sorted by date ascending with times ascending
within each date (the (date, time) key order `viewLe`). -/
theorem claim_C7 (ledger : List Slot) (dateF statusF : Option String)
    (D S : String) (hD : D ≠ "") (hS : S ≠ "") :
    (∀ b, b ∈ viewFilter ledger (some D) none ↔ b ∈ ledger ∧ b.date = D) ∧
    (∀ b, b ∈ viewFilter ledger none (some S) ↔ b ∈ ledger ∧ b.status = S) ∧
    (∀ b, b ∈ viewFilter ledger (some D) (some S) ↔
      b ∈ ledger ∧ b.date = D ∧ b.status = S) ∧
    (∀ b, b ∈ viewDisplay ledger dateF statusF ↔
      b ∈ viewFilter ledger dateF statusF) ∧
    List.Sorted viewLe (viewDisplay ledger dateF statusF) := by
  refine ⟨?_, ?_, ?_, ?_, ?_⟩
  · intro b
    simp [viewFilter, hD, List.mem_filter]
  · intro b
    simp [viewFilter, hS, List.mem_filter]
  · intro b
    simp only [viewFilter, hD, hS, ne_eq, not_false_eq_true, if_true,
      List.mem_filter, decide_eq_true_eq]
    tauto
  · intro b
    simp [viewDisplay]
  · exact List.sorted_insertionSort viewLe _

/-- C7 (witness). -/
theorem claim_C7_witness :
    (∀ b, b ∈ viewFilter [bookedSlot, annSlot] (some "2026-02-15") none ↔
      b ∈ [bookedSlot, annSlot] ∧ b.date = "2026-02-15") ∧
    (∀ b, b ∈ viewFilter [bookedSlot, annSlot] none (some "available") ↔
      b ∈ [bookedSlot, annSlot] ∧ b.status = "available") ∧
    (∀ b, b ∈ viewFilter [bookedSlot, annSlot] (some "2026-02-15")
        (some "available") ↔
      b ∈ [bookedSlot, annSlot] ∧ b.date = "2026-02-15" ∧
        b.status = "available") ∧
    (∀ b, b ∈ viewDisplay [bookedSlot, annSlot] none none ↔
      b ∈ viewFilter [bookedSlot, annSlot] none none) ∧
    List.Sorted viewLe (viewDisplay [bookedSlot, annSlot] none none) :=
  claim_C7 [bookedSlot, annSlot] none none "2026-02-15" "available"
    (by decide) (by decide)

/-! ### C3 -/

/-- C3: booking an Available slot (any subject, description and student email)
and then canceling the booking with the matching student email, with every
remote call succeeding, restores exactly the pre-booking Available-state
fields — same date, time, status, volunteer name and volunteer email, and no
student email, subject, description or booked-at — while the stored remote
event id is the freshly issued id `cal.nextId + 1`, which is never the
pre-booking id (every previously stored id is below the fresh-id counter). -/
theorem claim_C3 (ledger : List Slot) (cal : Calendar) (dk1 dk2 : Bool)
    (d t subj de se now : String) (e0 : Nat) (b : Slot)
    (hfs : findSlot ledger d t = some b)
    (hav : b.status = "available")
    (heid : b.event_id = some e0)
    (hfresh : e0 < cal.nextId)
    (hs1 : b.student_email = none) (hs2 : b.subject = none)
    (hs3 : b.slotDescription = none) (hs4 : b.booked_at = none) :
    (book ledger cal dk1 true d t subj de se now).1 = BookOutcome.success ∧
    (cancelBooking (book ledger cal dk1 true d t subj de se now).2.1
        (book ledger cal dk1 true d t subj de se now).2.2 dk2 true d t se).1 =
      CancelOutcome.success ∧
    findSlot (cancelBooking (book ledger cal dk1 true d t subj de se now).2.1
        (book ledger cal dk1 true d t subj de se now).2.2 dk2 true d t se).2.1
        d t =
      some ⟨b.date, b.time, b.status, b.volunteer_name, b.volunteer_email,
            b.student_email, b.subject, b.slotDescription, b.booked_at,
            some (cal.nextId + 1)⟩ ∧
    cal.nextId + 1 ≠ e0 := by
  obtain ⟨hbd, hbt⟩ := findSlot_keys hfs
  simp only [hav, hs1, hs2, hs3, hs4]
  have hbook : book ledger cal dk1 true d t subj de se now =
      (BookOutcome.success,
       replaceFirst ledger d t
         ⟨b.date, b.time, "booked", b.volunteer_name, b.volunteer_email,
          some se, some subj, some de, some now, some cal.nextId⟩,
       ⟨cal.nextId + 1,
        cal.nextId :: ((deleteEvent cal dk1 e0).2).live⟩) := by
    cases dk1 <;> simp [book, hfs, hav, heid, createEvent, deleteEvent]
  rw [hbook]
  have hf2 : findSlot
      (replaceFirst ledger d t
        ⟨b.date, b.time, "booked", b.volunteer_name, b.volunteer_email,
         some se, some subj, some de, some now, some cal.nextId⟩) d t =
      some ⟨b.date, b.time, "booked", b.volunteer_name, b.volunteer_email,
            some se, some subj, some de, some now, some cal.nextId⟩ :=
    findSlot_replaceFirst hfs hbd hbt
  have hcancel : cancelBooking
      (replaceFirst ledger d t
        ⟨b.date, b.time, "booked", b.volunteer_name, b.volunteer_email,
         some se, some subj, some de, some now, some cal.nextId⟩)
      ⟨cal.nextId + 1, cal.nextId :: ((deleteEvent cal dk1 e0).2).live⟩
      dk2 true d t se =
      (CancelOutcome.success,
       replaceFirst
         (replaceFirst ledger d t
           ⟨b.date, b.time, "booked", b.volunteer_name, b.volunteer_email,
            some se, some subj, some de, some now, some cal.nextId⟩) d t
         ⟨b.date, b.time, "available", b.volunteer_name, b.volunteer_email,
          none, none, none, none, some (cal.nextId + 1)⟩,
       ⟨cal.nextId + 1 + 1,
        (cal.nextId + 1) ::
          ((deleteEvent
            ⟨cal.nextId + 1, cal.nextId :: ((deleteEvent cal dk1 e0).2).live⟩
            dk2 cal.nextId).2).live⟩) := by
    cases dk2 <;> simp [cancelBooking, hf2, createEvent, deleteEvent]
  rw [hcancel]
  refine ⟨rfl, rfl, ?_, by omega⟩
  rw [replaceFirst_replaceFirst
    ⟨b.date, b.time, "booked", b.volunteer_name, b.volunteer_email,
     some se, some subj, some de, some now, some cal.nextId⟩
    ⟨b.date, b.time, "available", b.volunteer_name, b.volunteer_email,
     none, none, none, none, some (cal.nextId + 1)⟩ hbd hbt]
  exact findSlot_replaceFirst hfs hbd hbt

/-- C3 (witness): booking Ann's slot and canceling it restores the slot with
event id 6 = calFive.nextId + 1, distinct from the pre-booking id 3. -/
theorem claim_C3_witness :
    (book [annSlot] calFive true true "2026-02-15" "10:00" "Loops" "help"
        "stu@x.com" "T").1 = BookOutcome.success ∧
    (cancelBooking (book [annSlot] calFive true true "2026-02-15" "10:00"
        "Loops" "help" "stu@x.com" "T").2.1
        (book [annSlot] calFive true true "2026-02-15" "10:00" "Loops" "help"
          "stu@x.com" "T").2.2 true true "2026-02-15" "10:00" "stu@x.com").1 =
      CancelOutcome.success ∧
    findSlot (cancelBooking (book [annSlot] calFive true true "2026-02-15"
        "10:00" "Loops" "help" "stu@x.com" "T").2.1
        (book [annSlot] calFive true true "2026-02-15" "10:00" "Loops" "help"
          "stu@x.com" "T").2.2 true true "2026-02-15" "10:00"
        "stu@x.com").2.1 "2026-02-15" "10:00" =
      some ⟨annSlot.date, annSlot.time, annSlot.status, annSlot.volunteer_name,
            annSlot.volunteer_email, annSlot.student_email, annSlot.subject,
            annSlot.slotDescription, annSlot.booked_at,
            some (calFive.nextId + 1)⟩ ∧
    calFive.nextId + 1 ≠ 3 :=
  claim_C3 [annSlot] calFive true true "2026-02-15" "10:00" "Loops" "help"
    "stu@x.com" "T" 3 annSlot rfl rfl rfl (by decide) rfl rfl rfl rfl

end Clinic
